import Mathlib

/-
Shallow embedding of the fincaserver-backend election-submission gate:
the rate limiter (src/lib/rateLimiter.ts), the whitelist validator
(playerValidator, shipped alongside src/lib/tebexClient.ts), the request
identity extractor (src/lib/deviceFingerprint.ts) and the security
middleware (eleccionesSecurityMiddleware).

The external backing store (supabase) is modelled as an oracle giving the
outcome of each query the code issues: a successful result, an error
result carried in the response object, or a thrown exception.  Every
embedded function additionally returns the list of backing queries it
issued, so that short-circuiting ("no backing query issued", "counters
never consulted") is an observable property.
-/

/-- JavaScript `s.trim()`: strip leading and trailing whitespace.  Written
over the character list so that it evaluates inside the kernel. -/
def jsTrim (s : String) : String :=
  ⟨((s.data.dropWhile Char.isWhitespace).reverse.dropWhile
      Char.isWhitespace).reverse⟩

/-- Helper for `jsSplitComma`: accumulate the current segment (reversed)
while scanning the character list. -/
def splitCommaAux : List Char → List Char → List (List Char)
  | [], acc => [acc.reverse]
  | c :: rest, acc =>
    if c = ',' then acc.reverse :: splitCommaAux rest []
    else splitCommaAux rest (c :: acc)

/-- JavaScript `s.split(',')`: every comma separates, empty segments are
kept, the empty string yields one empty segment. -/
def jsSplitComma (s : String) : List String :=
  (splitCommaAux s.data []).map fun l => ⟨l⟩

/-- JavaScript `v || d` on an optional string: the empty string is falsy. -/
def jsOrElse (v : Option String) (d : String) : String :=
  match v with
  | some s => if s = "" then d else s
  | none => d

/-- JavaScript `count || 0` on a nullable numeric count. -/
def jsOrZero (v : Option Nat) : Nat :=
  match v with
  | some n => n
  | none => 0

/-- JavaScript truthiness of an optional string value (`undefined` and the
empty string are falsy). -/
def jsTruthyOpt (v : Option String) : Bool :=
  match v with
  | some s => s ≠ ""
  | none => false

/-- Outcome of a supabase `.single()` lookup: a row was returned, an error
result came back carrying a code (supabase uses code PGRST116 for
"no rows"), or the awaited call threw an exception. -/
inductive DbSingle where
  | row : DbSingle
  | errorCode : String → DbSingle
  | thrown : DbSingle
deriving DecidableEq

/-- Outcome of a supabase count query: a (nullable) count, an error result,
or a thrown exception. -/
inductive DbCount where
  | okC : Option Nat → DbCount
  | errC : DbCount
  | thrownC : DbCount
deriving DecidableEq

/-- Outcome of a supabase insert: success, an error result, or a thrown
exception. -/
inductive DbWrite where
  | okW : DbWrite
  | errW : DbWrite
  | thrownW : DbWrite
deriving DecidableEq

/-- Status column of an attempt row in `elecciones_submissions`. -/
inductive AttemptStatus where
  | success : AttemptStatus
  | failed : AttemptStatus
deriving DecidableEq

/-- The row `recordSubmissionAttempt` inserts into `elecciones_submissions`. -/
structure AttemptRow where
  mcName : String
  ipAddress : String
  deviceFingerprint : String
  userAgent : String
  eleccionId : Option String
  status : AttemptStatus
deriving DecidableEq

/-- A backing query issued by the gate, identified by call site. -/
inductive Query where
  | whitelist : String → Query
  | submissionExists : String → Query
  | ipCount : String → Nat → Query
  | deviceCount : String → Nat → Query
  | insertAttempt : AttemptRow → Query
deriving DecidableEq

/-- True for the two trailing-window counter queries. -/
def Query.isCountQuery : Query → Bool
  | Query.ipCount _ _ => true
  | Query.deviceCount _ _ => true
  | _ => false

/-- True for a device-fingerprint counter query. -/
def Query.isDeviceCount : Query → Bool
  | Query.deviceCount _ _ => true
  | _ => false

/-- True for a whitelist lookup. -/
def Query.isWhitelist : Query → Bool
  | Query.whitelist _ => true
  | _ => false

/-- Oracle for the backing store: the outcome of each query the code can
issue.  Count queries take the dimension value and the window in hours. -/
structure Store where
  whitelistSingle : String → DbSingle
  submissionSingle : String → DbSingle
  ipCountQ : String → Nat → DbCount
  deviceCountQ : String → Nat → DbCount
  insertQ : AttemptRow → DbWrite

/-- The four environment-derived configuration constants at the top of
rateLimiter.ts (MAX_SUBMISSIONS_PER_MC_NAME, MAX_SUBMISSIONS_PER_IP,
MAX_SUBMISSIONS_PER_DEVICE, RATE_LIMIT_WINDOW_HOURS). -/
structure Config where
  maxPerName : Nat
  maxPerIp : Nat
  maxPerDevice : Nat
  windowHours : Nat
deriving DecidableEq

/-- The parseInt fallbacks in rateLimiter.ts: 1, 3, 2, 24. -/
def defaultConfig : Config :=
  { maxPerName := 1, maxPerIp := 3, maxPerDevice := 2, windowHours := 24 }

/-- Embedding of `hasAlreadySubmitted` (rateLimiter.ts): blank name returns
false without querying; otherwise a `.single()` ilike lookup on the
`elecciones` table; a returned row means true, any error result (including
PGRST116 "no rows") or thrown exception means false. -/
def hasAlreadySubmitted (store : Store) (mcName : String) : Bool × List Query :=
  if jsTrim mcName = "" then (false, [])
  else
    let normalizedName := jsTrim mcName
    let res :=
      match store.submissionSingle normalizedName with
      | DbSingle.row => true
      | DbSingle.errorCode _ => false
      | DbSingle.thrown => false
    (res, [Query.submissionExists normalizedName])

/-- Embedding of `countIpSubmissions` (rateLimiter.ts): empty or "unknown"
address short-circuits to 0 without querying; otherwise a count query over
the trailing window; a null count, an error result or a thrown exception
all yield 0. -/
def countIpSubmissions (store : Store) (ipAddress : String) (hours : Nat) :
    Nat × List Query :=
  if ipAddress = "" ∨ ipAddress = "unknown" then (0, [])
  else
    let res :=
      match store.ipCountQ ipAddress hours with
      | DbCount.okC c => jsOrZero c
      | DbCount.errC => 0
      | DbCount.thrownC => 0
    (res, [Query.ipCount ipAddress hours])

/-- Embedding of `countDeviceSubmissions` (rateLimiter.ts): only an empty
fingerprint short-circuits (the source guard is `if (!deviceFingerprint)`);
otherwise a count query over the trailing window; a null count, an error
result or a thrown exception all yield 0. -/
def countDeviceSubmissions (store : Store) (deviceFingerprint : String)
    (hours : Nat) : Nat × List Query :=
  if deviceFingerprint = "" then (0, [])
  else
    let res :=
      match store.deviceCountQ deviceFingerprint hours with
      | DbCount.okC c => jsOrZero c
      | DbCount.errC => 0
      | DbCount.thrownC => 0
    (res, [Query.deviceCount deviceFingerprint hours])

/-- A JavaScript runtime exception surfacing inside the middleware body. -/
inductive JsExn where
  | typeError : JsExn
deriving DecidableEq

/-- Embedding of `recordSubmissionAttempt` (rateLimiter.ts).  The attempted
row stores the trimmed name, `eleccion_id: eleccionId || null` and
`status: eleccionId ? 'success' : 'failed'` (JS truthiness: an empty-string
id counts as absent).  The whole body is wrapped in try/catch and every
insert outcome, including a thrown exception, returns normally. -/
def recordSubmissionAttempt (store : Store)
    (mcName ipAddress deviceFingerprint userAgent : String)
    (eleccionId : Option String) : Except JsExn Unit × AttemptRow :=
  let row : AttemptRow :=
    { mcName := jsTrim mcName
      ipAddress := ipAddress
      deviceFingerprint := deviceFingerprint
      userAgent := userAgent
      eleccionId := if jsTruthyOpt eleccionId then eleccionId else none
      status := if jsTruthyOpt eleccionId then AttemptStatus.success
                else AttemptStatus.failed }
  match store.insertQ row with
  | DbWrite.okW => (Except.ok (), row)
  | DbWrite.errW => (Except.ok (), row)
  | DbWrite.thrownW => (Except.ok (), row)

/-- Spec-level reason code naming the deny branch of `checkRateLimits`
(the source identifies the branch only by its Spanish message). -/
inductive DenyReason where
  | duplicateIdentity : DenyReason
  | ipLimit : DenyReason
  | deviceLimit : DenyReason
deriving DecidableEq

/-- Result of `checkRateLimits`: the source returns `allowed` and an
optional message; `reason` labels which deny branch produced it. -/
structure RLResult where
  allowed : Bool
  reason : Option DenyReason
  error : Option String
deriving DecidableEq

/-- The duplicate-identity message from checkRateLimits. -/
def msgDuplicate : String :=
  "Este nombre de Minecraft ya ha enviado una elección"

/-- The ip-limit message template from checkRateLimits. -/
def msgIpLimit (maxPerIp windowHours : Nat) : String :=
  "Has alcanzado el límite de envíos desde esta dirección IP (máximo " ++
    toString maxPerIp ++ " por " ++ toString windowHours ++ " horas)"

/-- The device-limit message template from checkRateLimits. -/
def msgDeviceLimit (maxPerDevice windowHours : Nat) : String :=
  "Has alcanzado el límite de envíos desde este dispositivo (máximo " ++
    toString maxPerDevice ++ " por " ++ toString windowHours ++ " horas)"

/-- Embedding of `checkRateLimits` (rateLimiter.ts): prior-submission
check, then the IP counter against MAX_SUBMISSIONS_PER_IP, then the device
counter against MAX_SUBMISSIONS_PER_DEVICE, each deny short-circuiting the
rest.  Both counters run at the configured window (the source calls them
with the RATE_LIMIT_WINDOW_HOURS default argument).  `cfg.maxPerName` is
not consulted anywhere in the source function. -/
def checkRateLimits (cfg : Config) (store : Store)
    (mcName ipAddress deviceFingerprint : String) : RLResult × List Query :=
  let hp := hasAlreadySubmitted store mcName
  if hp.fst then
    (⟨false, some DenyReason.duplicateIdentity, some msgDuplicate⟩, hp.snd)
  else
    let ic := countIpSubmissions store ipAddress cfg.windowHours
    if cfg.maxPerIp ≤ ic.fst then
      (⟨false, some DenyReason.ipLimit,
        some (msgIpLimit cfg.maxPerIp cfg.windowHours)⟩, hp.snd ++ ic.snd)
    else
      let dc := countDeviceSubmissions store deviceFingerprint cfg.windowHours
      if cfg.maxPerDevice ≤ dc.fst then
        (⟨false, some DenyReason.deviceLimit,
          some (msgDeviceLimit cfg.maxPerDevice cfg.windowHours)⟩,
         hp.snd ++ ic.snd ++ dc.snd)
      else
        (⟨true, none, none⟩, hp.snd ++ ic.snd ++ dc.snd)

/-- Embedding of `isValidPlayer` (playerValidator): blank name returns
false without querying; otherwise a `.single()` ilike lookup on
`player_whitelist` restricted to active entries; a returned row means
true, any error result (including PGRST116) or thrown exception means
false. -/
def isValidPlayer (store : Store) (mcName : String) : Bool × List Query :=
  if jsTrim mcName = "" then (false, [])
  else
    let normalizedName := jsTrim mcName
    let res :=
      match store.whitelistSingle normalizedName with
      | DbSingle.row => true
      | DbSingle.errorCode _ => false
      | DbSingle.thrown => false
    (res, [Query.whitelist normalizedName])

/-- An HTTP header value as express exposes it: either a single string or
a list of strings. -/
inductive HeaderVal where
  | str : String → HeaderVal
  | list : List String → HeaderVal
deriving DecidableEq

/-- A JSON value sitting in `req.body.mcName`: absent, a string, or some
non-string JSON value together with its JS truthiness (numbers, booleans,
null, arrays, objects). -/
inductive BodyVal where
  | missing : BodyVal
  | str : String → BodyVal
  | nonString : Bool → BodyVal
deriving DecidableEq

/-- The fields of the parsed request body the middleware reads. -/
structure ReqBody where
  mcName : BodyVal
  deviceFingerprint : Option String
deriving DecidableEq

/-- The request metadata the gate reads: the two IP headers, the
user-agent header, the socket remote address, the express-computed
`req.ip`, and the parsed body. -/
structure Req where
  forwardedFor : Option HeaderVal
  realIp : Option HeaderVal
  userAgentH : Option String
  socketRemoteAddress : Option String
  reqIp : Option String
  body : ReqBody

/-- First comma-separated entry of a forwarded-for value, trimmed
(`s.split(',')[0]?.trim()`). -/
def firstForwardedEntry (s : String) : String :=
  jsTrim ((jsSplitComma s).headD "")

/-- Embedding of `getClientIp` (deviceFingerprint.ts): a truthy
forwarded-for header wins when its first comma-separated entry trims to a
non-empty string (for a list, the first element is used); otherwise a
truthy single-string real-IP header; otherwise
`req.socket?.remoteAddress || req.ip || 'unknown'`. -/
def getClientIp (req : Req) : String :=
  let fromForwarded : Option String :=
    match req.forwardedFor with
    | none => none
    | some (HeaderVal.str s) =>
      if s = "" then none
      else
        let firstIp := firstForwardedEntry s
        if firstIp = "" then none else some firstIp
    | some (HeaderVal.list l) =>
      if l.isEmpty then none
      else
        let trimmedIp := firstForwardedEntry (l.headD "")
        if trimmedIp = "" then none else some trimmedIp
  match fromForwarded with
  | some ip => ip
  | none =>
    let fromRealIp : Option String :=
      match req.realIp with
      | some (HeaderVal.str r) => if r = "" then none else some r
      | _ => none
    match fromRealIp with
    | some ip => ip
    | none => jsOrElse req.socketRemoteAddress (jsOrElse req.reqIp "unknown")

/-- Embedding of `getUserAgent` (deviceFingerprint.ts):
`req.headers['user-agent'] || 'unknown'`. -/
def getUserAgent (req : Req) : String :=
  jsOrElse req.userAgentH "unknown"

/-- Evaluation of the middleware guard `if (!mcName || !mcName.trim())` on
the untrusted body field: `.ok none` means the guard fired (blank/absent/
falsy value), `.ok (some s)` means `mcName` is the usable string `s`, and
`.error` models the TypeError thrown by `.trim()` on a truthy non-string
JSON value. -/
def readMcName : BodyVal → Except JsExn (Option String)
  | BodyVal.missing => Except.ok none
  | BodyVal.nonString truthy =>
    if truthy then Except.error JsExn.typeError else Except.ok none
  | BodyVal.str s =>
    if s = "" then Except.ok none
    else if jsTrim s = "" then Except.ok none
    else Except.ok (some s)

/-- The JSON body of a middleware rejection: the error message plus the
optional discordUrl and type fields used by the 403 response. -/
structure RespBody where
  error : String
  discordUrl : Option String
  type : Option String
deriving DecidableEq

/-- Outcome of the middleware: an early `res.status(...).json(...)`
rejection, or `next()` admitting the request. -/
inductive MwOutcome where
  | rejected : Nat → RespBody → MwOutcome
  | admitted : MwOutcome
deriving DecidableEq

/-- The tracking fields the middleware stores on the request object. -/
structure Ctx where
  clientIp : Option String
  deviceFingerprint : Option String
  userAgent : Option String
deriving DecidableEq

/-- Full observable result of one middleware run: the HTTP outcome, the
request-context fields it wrote, and the backing queries issued. -/
structure MwResult where
  outcome : MwOutcome
  ctx : Ctx
  trace : List Query
deriving DecidableEq

/-- Everything one middleware run depends on: the configuration, the
backing store, the request, and the DISCORD_INVITE_URL environment
variable. -/
structure MwEnv where
  cfg : Config
  store : Store
  req : Req
  discordEnv : Option String

/-- Embedding of `eleccionesSecurityMiddleware` (middleware/eleccionesAuth):
extract the fingerprint (`req.body.deviceFingerprint || ''`), client IP and
user agent, store them on the request, then reject 400 on a blank name,
403 (with discord guidance) when not whitelisted, 429 with the rate
limiter's message when a limit is hit, and otherwise call `next()`.  The
surrounding try/catch converts any exception thrown during these steps
into a fixed 500 response. -/
def eleccionesSecurityMiddleware (env : MwEnv) : MwResult :=
  let fp := jsOrElse env.req.body.deviceFingerprint ""
  let clientIp := getClientIp env.req
  let ua := getUserAgent env.req
  let ctx : Ctx := ⟨some clientIp, some fp, some ua⟩
  match readMcName env.req.body.mcName with
  | Except.error _ =>
    ⟨MwOutcome.rejected 500 ⟨"Error al validar la solicitud", none, none⟩,
     ctx, []⟩
  | Except.ok none =>
    ⟨MwOutcome.rejected 400 ⟨"El nombre de MC es requerido", none, none⟩,
     ctx, []⟩
  | Except.ok (some mcName) =>
    let wl := isValidPlayer env.store mcName
    if wl.fst then
      let rl := checkRateLimits env.cfg env.store mcName clientIp fp
      if rl.fst.allowed then
        ⟨MwOutcome.admitted, ctx, wl.snd ++ rl.snd⟩
      else
        ⟨MwOutcome.rejected 429
          ⟨jsOrElse rl.fst.error "Límite de envíos alcanzado", none, none⟩,
         ctx, wl.snd ++ rl.snd⟩
    else
      ⟨MwOutcome.rejected 403
        ⟨"Usuario no se le ha permitido postularse, hable con un admin en discord",
         some (jsOrElse env.discordEnv ""), some "whitelist_error"⟩,
       ctx, wl.snd⟩

/-- A quiet backing store: nothing submitted, nobody whitelisted, all
counts zero, inserts succeed. -/
def storeEmptyOk : Store where
  whitelistSingle := fun _ => DbSingle.errorCode "PGRST116"
  submissionSingle := fun _ => DbSingle.errorCode "PGRST116"
  ipCountQ := fun _ _ => DbCount.okC (some 0)
  deviceCountQ := fun _ _ => DbCount.okC (some 0)
  insertQ := fun _ => DbWrite.okW

/-- A store whose whitelist lookup finds an active row for every name. -/
def storeWhitelisted : Store :=
  { storeEmptyOk with whitelistSingle := fun _ => DbSingle.row }

/-- A store in which every name already has a prior submission (the
existence lookup returns a row). -/
def storeDupSubmission : Store :=
  { storeEmptyOk with submissionSingle := fun _ => DbSingle.row }

/-- A store reporting five prior attempts for every device fingerprint. -/
def storeDeviceFive : Store :=
  { storeEmptyOk with deviceCountQ := fun _ _ => DbCount.okC (some 5) }

/-- A store on which every backing call throws an exception. -/
def storeAllThrown : Store where
  whitelistSingle := fun _ => DbSingle.thrown
  submissionSingle := fun _ => DbSingle.thrown
  ipCountQ := fun _ _ => DbCount.thrownC
  deviceCountQ := fun _ _ => DbCount.thrownC
  insertQ := fun _ => DbWrite.thrownW

/-- A request with no IP-related headers or addresses at all. -/
def reqBare : Req where
  forwardedFor := none
  realIp := none
  userAgentH := none
  socketRemoteAddress := none
  reqIp := none
  body := { mcName := BodyVal.str "Steve", deviceFingerprint := some "fp1" }

/-- A request with no headers and no socket address, but with an
express-computed `req.ip`. -/
def reqOnlyReqIp : Req :=
  { reqBare with reqIp := some "9.9.9.9" }

/-- Environment for an admitted request: whitelisted name, quiet store. -/
def envAdmit : MwEnv where
  cfg := defaultConfig
  store := storeWhitelisted
  req := reqBare
  discordEnv := some "https://discord.gg/finca"

/-- True when a `.single()` lookup failed (an error result or a thrown
exception rather than a returned row). -/
def DbSingle.isFailure : DbSingle → Bool
  | DbSingle.row => false
  | DbSingle.errorCode _ => true
  | DbSingle.thrown => true

/-- True when a count query failed (an error result or a thrown exception
rather than a count). -/
def DbCount.isFailure : DbCount → Bool
  | DbCount.okC _ => false
  | DbCount.errC => true
  | DbCount.thrownC => true

/-- A configuration raising the per-name threshold to 2. -/
def configMaxName2 : Config :=
  { defaultConfig with maxPerName := 2 }

/-- Modelled from the amended claim wording, fourth fallback: the
express-computed request IP when non-empty, else the sentinel. -/
def resolveReqIpSpec (req : Req) : String :=
  match req.reqIp with
  | some i => if i = "" then "unknown" else i
  | none => "unknown"

/-- Modelled from the amended claim wording, third fallback: the socket
remote address when non-empty, else the request-IP fallback. -/
def resolveSocketSpec (req : Req) : String :=
  match req.socketRemoteAddress with
  | some a => if a = "" then resolveReqIpSpec req else a
  | none => resolveReqIpSpec req

/-- Modelled from the amended claim wording: in precedence order, the
first comma-separated entry (trimmed) of the forwarded-for header when
that entry is non-empty — uniformly for a single string and for the first
element of a list — else the real-IP header when a non-empty single
string, else the socket remote address, else the request IP, else the
sentinel "unknown". -/
def resolveClientAddressSpec (req : Req) : String :=
  let fromForwarded : Option String :=
    match req.forwardedFor with
    | some (HeaderVal.str s) =>
      if firstForwardedEntry s = "" then none else some (firstForwardedEntry s)
    | some (HeaderVal.list []) => none
    | some (HeaderVal.list (h :: _)) =>
      if firstForwardedEntry h = "" then none else some (firstForwardedEntry h)
    | none => none
  match fromForwarded with
  | some e => e
  | none =>
    match req.realIp with
    | some (HeaderVal.str r) => if r = "" then resolveSocketSpec req else r
    | _ => resolveSocketSpec req

/-- The prior-submission lookup issues no counter queries. -/
theorem hasAlreadySubmitted_trace_noCount (store : Store) (n : String) :
    ((hasAlreadySubmitted store n).snd.all fun q => !q.isCountQuery) = true := by
  unfold hasAlreadySubmitted
  split <;> simp [Query.isCountQuery]

/-- The IP counter issues no device-counter queries. -/
theorem countIpSubmissions_trace_noDevice (store : Store) (ip : String)
    (hours : Nat) :
    ((countIpSubmissions store ip hours).snd.all fun q => !q.isDeviceCount) =
      true := by
  unfold countIpSubmissions
  split <;> simp [Query.isDeviceCount]

/-- The prior-submission lookup issues no device-counter queries. -/
theorem hasAlreadySubmitted_trace_noDevice (store : Store) (n : String) :
    ((hasAlreadySubmitted store n).snd.all fun q => !q.isDeviceCount) = true := by
  unfold hasAlreadySubmitted
  split <;> simp [Query.isDeviceCount]

/-- The whitelist validator only ever issues whitelist lookups. -/
theorem isValidPlayer_trace_whitelist (store : Store) (n : String) :
    ((isValidPlayer store n).snd.all Query.isWhitelist) = true := by
  unfold isValidPlayer
  split <;> simp [Query.isWhitelist]

/-- C1: checkRateLimits runs its checks in a fixed order with
short-circuit: a prior submission denies with the duplicate-identity
reason without consulting either counter; otherwise an IP count at or
above the configured maximum denies with the ip-limit reason without
consulting the device counter; otherwise a device count at or above the
configured maximum denies with the device-limit reason; otherwise the
request is allowed. -/
theorem checkRateLimits_fixed_order (cfg : Config) (store : Store)
    (n ip fp : String) :
    ((hasAlreadySubmitted store n).fst = true →
      (checkRateLimits cfg store n ip fp).fst =
        ⟨false, some DenyReason.duplicateIdentity, some msgDuplicate⟩ ∧
      ((checkRateLimits cfg store n ip fp).snd.all fun q => !q.isCountQuery) =
        true) ∧
    ((hasAlreadySubmitted store n).fst = false →
      cfg.maxPerIp ≤ (countIpSubmissions store ip cfg.windowHours).fst →
      (checkRateLimits cfg store n ip fp).fst =
        ⟨false, some DenyReason.ipLimit,
          some (msgIpLimit cfg.maxPerIp cfg.windowHours)⟩ ∧
      ((checkRateLimits cfg store n ip fp).snd.all fun q => !q.isDeviceCount) =
        true) ∧
    ((hasAlreadySubmitted store n).fst = false →
      (countIpSubmissions store ip cfg.windowHours).fst < cfg.maxPerIp →
      cfg.maxPerDevice ≤ (countDeviceSubmissions store fp cfg.windowHours).fst →
      (checkRateLimits cfg store n ip fp).fst =
        ⟨false, some DenyReason.deviceLimit,
          some (msgDeviceLimit cfg.maxPerDevice cfg.windowHours)⟩) ∧
    ((hasAlreadySubmitted store n).fst = false →
      (countIpSubmissions store ip cfg.windowHours).fst < cfg.maxPerIp →
      (countDeviceSubmissions store fp cfg.windowHours).fst < cfg.maxPerDevice →
      (checkRateLimits cfg store n ip fp).fst = ⟨true, none, none⟩) := by
  refine ⟨?_, ?_, ?_, ?_⟩
  · intro h
    refine ⟨by simp [checkRateLimits, h], ?_⟩
    simp [checkRateLimits, h, hasAlreadySubmitted_trace_noCount]
  · intro h hip
    refine ⟨by simp [checkRateLimits, h, hip], ?_⟩
    have h1 := hasAlreadySubmitted_trace_noDevice store n
    have h2 := countIpSubmissions_trace_noDevice store ip cfg.windowHours
    simp only [List.all_eq_true] at h1 h2 ⊢
    simp only [checkRateLimits, h, if_false, Bool.false_eq_true, if_pos hip]
    intro q hq
    simp only [List.mem_append] at hq
    rcases hq with hq | hq
    · exact h1 q hq
    · exact h2 q hq
  · intro h hip hdev
    simp [checkRateLimits, h, Nat.not_le.mpr hip, hdev]
  · intro h hip hdev
    simp [checkRateLimits, h, Nat.not_le.mpr hip, Nat.not_le.mpr hdev]

/-- Witness for C1: on a quiet store with the default configuration the
engine allows the request. -/
theorem checkRateLimits_fixed_order_w :
    (checkRateLimits defaultConfig storeEmptyOk "Steve" "1.2.3.4" "fpA").fst =
      ⟨true, none, none⟩ :=
  (checkRateLimits_fixed_order defaultConfig storeEmptyOk "Steve" "1.2.3.4"
    "fpA").2.2.2 (by decide) (by decide) (by decide)

/-- C2: the middleware rejects in order — blank name 400; not whitelisted
403 with only the whitelist lookup issued (the rate counters are never
invoked); decision engine denial 429 carrying the engine message; a fault
thrown during the steps is converted to a fixed generic 500; otherwise the
request is admitted. -/
theorem middleware_gate_order (env : MwEnv) :
    (readMcName env.req.body.mcName = Except.ok none →
      (eleccionesSecurityMiddleware env).outcome =
        MwOutcome.rejected 400 ⟨"El nombre de MC es requerido", none, none⟩) ∧
    (∀ s, readMcName env.req.body.mcName = Except.ok (some s) →
      (isValidPlayer env.store s).fst = false →
      (eleccionesSecurityMiddleware env).outcome =
        MwOutcome.rejected 403
          ⟨"Usuario no se le ha permitido postularse, hable con un admin en discord",
           some (jsOrElse env.discordEnv ""), some "whitelist_error"⟩ ∧
      ((eleccionesSecurityMiddleware env).trace.all Query.isWhitelist) = true) ∧
    (∀ s m, readMcName env.req.body.mcName = Except.ok (some s) →
      (isValidPlayer env.store s).fst = true →
      (checkRateLimits env.cfg env.store s (getClientIp env.req)
          (jsOrElse env.req.body.deviceFingerprint "")).fst.allowed = false →
      (checkRateLimits env.cfg env.store s (getClientIp env.req)
          (jsOrElse env.req.body.deviceFingerprint "")).fst.error = some m →
      m ≠ "" →
      (eleccionesSecurityMiddleware env).outcome =
        MwOutcome.rejected 429 ⟨m, none, none⟩) ∧
    (∀ e, readMcName env.req.body.mcName = Except.error e →
      (eleccionesSecurityMiddleware env).outcome =
        MwOutcome.rejected 500 ⟨"Error al validar la solicitud", none, none⟩) ∧
    (∀ s, readMcName env.req.body.mcName = Except.ok (some s) →
      (isValidPlayer env.store s).fst = true →
      (checkRateLimits env.cfg env.store s (getClientIp env.req)
          (jsOrElse env.req.body.deviceFingerprint "")).fst.allowed = true →
      (eleccionesSecurityMiddleware env).outcome = MwOutcome.admitted) := by
  refine ⟨?_, ?_, ?_, ?_, ?_⟩
  · intro h
    simp [eleccionesSecurityMiddleware, h]
  · intro s h hw
    constructor
    · simp [eleccionesSecurityMiddleware, h, hw]
    · simp [eleccionesSecurityMiddleware, h, hw, isValidPlayer_trace_whitelist]
  · intro s m h hw hal he hne
    simp only [eleccionesSecurityMiddleware, h, hw, hal, he]
    simp [jsOrElse, hne]
  · intro e h
    simp [eleccionesSecurityMiddleware, h]
  · intro s h hw hal
    simp [eleccionesSecurityMiddleware, h, hw, hal]

/-- Witness for C2: a whitelisted name with a quiet store is admitted. -/
theorem middleware_gate_order_w :
    (eleccionesSecurityMiddleware envAdmit).outcome = MwOutcome.admitted :=
  (middleware_gate_order envAdmit).2.2.2.2 "Steve" rfl (by decide) (by decide)

/-- C3: the eligibility check fails closed — for a non-blank name, any
error result or thrown exception from the whitelist backing query makes
`isValidPlayer` return false. -/
theorem isValidPlayer_fails_closed (store : Store) (name : String)
    (hnb : jsTrim name ≠ "")
    (hf : (store.whitelistSingle (jsTrim name)).isFailure = true) :
    (isValidPlayer store name).fst = false := by
  simp only [isValidPlayer, hnb, if_neg hnb]
  cases h : store.whitelistSingle (jsTrim name) <;>
    simp_all [DbSingle.isFailure]

/-- Witness for C3: a store whose every call throws still yields an
ineligible verdict. -/
theorem isValidPlayer_fails_closed_w :
    (isValidPlayer storeAllThrown "Steve").fst = false :=
  isValidPlayer_fails_closed storeAllThrown "Steve" (by decide) (by decide)

/-- C4: both dimension counters fail soft — any error result or thrown
exception from the backing count query makes them return 0. -/
theorem counts_fail_soft (store : Store) (v : String) (hours : Nat) :
    ((store.ipCountQ v hours).isFailure = true →
      (countIpSubmissions store v hours).fst = 0) ∧
    ((store.deviceCountQ v hours).isFailure = true →
      (countDeviceSubmissions store v hours).fst = 0) := by
  constructor
  · intro hf
    unfold countIpSubmissions
    split
    · rfl
    · cases h : store.ipCountQ v hours <;> simp_all [DbCount.isFailure]
  · intro hf
    unfold countDeviceSubmissions
    split
    · rfl
    · cases h : store.deviceCountQ v hours <;> simp_all [DbCount.isFailure]

/-- Witness for C4: under an all-throwing store both counters report 0. -/
theorem counts_fail_soft_w :
    (countIpSubmissions storeAllThrown "1.2.3.4" 24).fst = 0 ∧
    (countDeviceSubmissions storeAllThrown "fpA" 24).fst = 0 :=
  ⟨(counts_fail_soft storeAllThrown "1.2.3.4" 24).1 (by decide),
   (counts_fail_soft storeAllThrown "fpA" 24).2 (by decide)⟩

/-- Counterexample to C5: the device counter does query for the sentinel
fingerprint "unknown" and returns the backing count, not 0. -/
theorem countDevice_unknown_queries_cex :
    (countDeviceSubmissions storeDeviceFive "unknown" 24).fst ≠ 0 ∧
    (countDeviceSubmissions storeDeviceFive "unknown" 24).snd ≠ [] := by
  decide

/-- C5 amended: the empty value short-circuits to 0 without querying on
both dimensions, and the sentinel "unknown" does so on the IP dimension
only. -/
theorem dimension_shortcircuit_amended (store : Store) (hours : Nat) :
    countIpSubmissions store "" hours = (0, []) ∧
    countIpSubmissions store "unknown" hours = (0, []) ∧
    countDeviceSubmissions store "" hours = (0, []) := by
  refine ⟨rfl, ?_, rfl⟩
  simp [countIpSubmissions]

/-- Counterexample to C6: with maxPerName configured to 2, an identity
with a single prior submission (the existence lookup returns a row) is
still denied with the duplicate-identity reason. -/
theorem maxPerName_ignored_cex :
    configMaxName2.maxPerName = 2 ∧
    (checkRateLimits configMaxName2 storeDupSubmission "Steve" "1.2.3.4"
        "fpA").fst =
      ⟨false, some DenyReason.duplicateIdentity, some msgDuplicate⟩ := by
  constructor
  · rfl
  · decide

/-- C6 amended: maxPerIp, maxPerDevice and windowHours are configuration
inputs the decision engine honors (defaults 3, 2, 24); maxPerName is read
from configuration (default 1) but never consulted — the verdict is
invariant under it, and the per-identity check denies on any prior
submission. -/
theorem config_thresholds_amended :
    defaultConfig = ⟨1, 3, 2, 24⟩ ∧
    (∀ (cfg : Config) (k : Nat) (store : Store) (n ip fp : String),
      checkRateLimits { cfg with maxPerName := k } store n ip fp =
        checkRateLimits cfg store n ip fp) ∧
    (∀ (cfg : Config) (store : Store) (n ip fp : String),
      (hasAlreadySubmitted store n).fst = false →
      ((checkRateLimits cfg store n ip fp).fst.allowed = true ↔
        (countIpSubmissions store ip cfg.windowHours).fst < cfg.maxPerIp ∧
        (countDeviceSubmissions store fp cfg.windowHours).fst <
          cfg.maxPerDevice)) := by
  refine ⟨rfl, fun cfg k store n ip fp => rfl, ?_⟩
  intro cfg store n ip fp h
  simp only [checkRateLimits, h, Bool.false_eq_true, if_false]
  split
  · next h1 => simp [Nat.not_lt.mpr h1]
  · next h1 =>
    split
    · next h2 => simp [Nat.not_lt.mpr h2, Nat.lt_of_not_le h1]
    · next h2 => simp [Nat.lt_of_not_le h1, Nat.lt_of_not_le h2]

/-- Witness for C6: at the default thresholds with a quiet store the
verdict is allowed, via the amended characterization. -/
theorem config_thresholds_amended_w :
    (checkRateLimits defaultConfig storeEmptyOk "Ana" "2.2.2.2"
        "fpB").fst.allowed = true :=
  (config_thresholds_amended.2.2 defaultConfig storeEmptyOk "Ana" "2.2.2.2"
      "fpB" (by decide)).mpr (by decide)

/-- Counterexample to C7: a relatedSubmissionId that is provided but
empty yields a row with status failed (JS truthiness), not success. -/
theorem recordAttempt_empty_id_cex :
    (recordSubmissionAttempt storeEmptyOk "Steve" "1.2.3.4" "fpA" "uaX"
        (some "")).snd.status = AttemptStatus.failed ∧
    (some "" : Option String) ≠ none := by
  decide

/-- C7 amended: recordSubmissionAttempt never raises to its caller — every
insert outcome, including a thrown exception, returns normally — and the
attempted row has status success exactly when a non-empty
relatedSubmissionId is provided, failed otherwise. -/
theorem recordAttempt_amended (store : Store)
    (n ip fp ua : String) (oid : Option String) :
    (recordSubmissionAttempt store n ip fp ua oid).fst = Except.ok () ∧
    ((recordSubmissionAttempt store n ip fp ua oid).snd.status =
        AttemptStatus.success ↔ ∃ s, oid = some s ∧ s ≠ "") := by
  constructor
  · simp only [recordSubmissionAttempt]
    split <;> rfl
  · simp only [recordSubmissionAttempt]
    split <;>
    · rcases oid with _ | s
      · simp [jsTruthyOpt]
      · by_cases hs : s = "" <;> simp [jsTruthyOpt, hs]

/-- Counterexample to C8: with no forwarded-for header, no real-IP header
and no socket address, getClientIp falls back to the express-computed
`req.ip` instead of the sentinel "unknown". -/
theorem getClientIp_reqIp_cex :
    reqOnlyReqIp.forwardedFor = none ∧
    reqOnlyReqIp.realIp = none ∧
    reqOnlyReqIp.socketRemoteAddress = none ∧
    getClientIp reqOnlyReqIp = "9.9.9.9" ∧
    getClientIp reqOnlyReqIp ≠ "unknown" := by
  decide

/-- C8 amended: getClientIp implements exactly the precedence order of the
amended claim, with the express request-IP fallback between the socket
address and the sentinel. -/
theorem getClientIp_precedence (req : Req) :
    getClientIp req = resolveClientAddressSpec req := by
  have hempty : firstForwardedEntry "" = "" := by decide
  obtain ⟨ff, ri, ua, sock, rip, body⟩ := req
  have htail : jsOrElse sock (jsOrElse rip "unknown") =
      resolveSocketSpec ⟨ff, ri, ua, sock, rip, body⟩ := by
    rcases sock with _ | a
    · rcases rip with _ | i
      · rfl
      · by_cases hi : i = "" <;>
          simp [jsOrElse, resolveSocketSpec, resolveReqIpSpec, hi]
    · rcases rip with _ | i
      · by_cases ha : a = "" <;>
          simp [jsOrElse, resolveSocketSpec, resolveReqIpSpec, ha]
      · by_cases ha : a = "" <;> by_cases hi : i = "" <;>
          simp [jsOrElse, resolveSocketSpec, resolveReqIpSpec, ha, hi]
  rcases ff with _ | hv
  · rcases ri with _ | rv
    · simp [getClientIp, resolveClientAddressSpec, htail]
    · cases rv with
      | str r =>
        by_cases hr : r = "" <;>
          simp [getClientIp, resolveClientAddressSpec, hr, htail]
      | list rl =>
        simp [getClientIp, resolveClientAddressSpec, htail]
  · cases hv with
    | str s =>
      by_cases he : firstForwardedEntry s = ""
      · rcases ri with _ | rv
        · simp [getClientIp, resolveClientAddressSpec, he, ite_self, htail]
        · cases rv with
          | str r =>
            by_cases hr : r = "" <;>
              simp [getClientIp, resolveClientAddressSpec, he, ite_self, hr,
                htail]
          | list rl =>
            simp [getClientIp, resolveClientAddressSpec, he, ite_self, htail]
      · have hs : ¬s = "" := by
          intro hcon
          rw [hcon] at he
          exact he hempty
        simp [getClientIp, resolveClientAddressSpec, hs, he]
    | list l =>
      rcases l with _ | ⟨h, t⟩
      · rcases ri with _ | rv
        · simp [getClientIp, resolveClientAddressSpec, htail]
        · cases rv with
          | str r =>
            by_cases hr : r = "" <;>
              simp [getClientIp, resolveClientAddressSpec, hr, htail]
          | list rl =>
            simp [getClientIp, resolveClientAddressSpec, htail]
      · by_cases he : firstForwardedEntry h = ""
        · rcases ri with _ | rv
          · simp [getClientIp, resolveClientAddressSpec, he, htail]
          · cases rv with
            | str r =>
              by_cases hr : r = "" <;>
                simp [getClientIp, resolveClientAddressSpec, he, hr, htail]
            | list rl =>
              simp [getClientIp, resolveClientAddressSpec, he, htail]
        · simp [getClientIp, resolveClientAddressSpec, he]

/-- C9: a blank or whitespace-only name makes isValidPlayer return false
with no backing query issued, for every backing-store state. -/
theorem isValidPlayer_blank_noquery (store : Store) (name : String)
    (h : jsTrim name = "") :
    isValidPlayer store name = (false, []) := by
  simp [isValidPlayer, h]

/-- Witness for C9: a whitespace-only name on an all-throwing store. -/
theorem isValidPlayer_blank_noquery_w :
    isValidPlayer storeAllThrown "   " = (false, []) :=
  isValidPlayer_blank_noquery storeAllThrown "   " (by decide)

/-- C10: on every outcome, including every rejection path, the middleware
has written the resolved client IP, the body device fingerprint
(defaulting to the empty string) and the user agent onto the request
context. -/
theorem middleware_ctx_populated (env : MwEnv) :
    (eleccionesSecurityMiddleware env).ctx =
      ⟨some (getClientIp env.req),
       some (jsOrElse env.req.body.deviceFingerprint ""),
       some (getUserAgent env.req)⟩ := by
  unfold eleccionesSecurityMiddleware
  split
  · rfl
  · rfl
  · dsimp only
    split
    · split <;> rfl
    · rfl
